import Mathlib

/-!
A shallow embedding of the `areo` single-threaded event-loop library
(`src/areo/futures.py`, `src/areo/base_loop.py`, `src/areo/handlers.py`).

Python values (results, exceptions, `None`) are modelled by the inductive
`PyVal`; a raised Python exception is modelled as the `PyVal` it carries,
and fallible methods return `Except PyVal _` whose `error` component is the
raised exception object.  Monotonic timestamps (`time.monotonic` floats)
are modelled as integers: every claim about timers only compares deadlines.
-/

/-- Python truthiness-carrying value universe used by the embedding:
`none` is `None`, `exc name msg` is an exception instance
(e.g. `RuntimeError(msg)`). -/
inductive PyVal : Type where
  | none : PyVal
  | int (n : Int) : PyVal
  | str (s : String) : PyVal
  | exc (name : String) (msg : String) : PyVal
deriving DecidableEq, Repr

/-- Python truthiness: `None`, `0` and `""` are falsy; exception objects are
truthy.  Used for the `if self._exception:` test in `Future.result`. -/
def PyVal.truthy : PyVal → Bool
  | .none => false
  | .int n => n != 0
  | .str s => s != ""
  | .exc _ _ => true

/-- The `State` enum of `futures.py` (`PENDING = 0, FINISHED = 1, CANCELLED = 2`). -/
inductive State : Type where
  | PENDING : State
  | FINISHED : State
  | CANCELLED : State
deriving DecidableEq, Repr

/-- The `Future` object state (`futures.py`, `Future.__init__`): fields
`_state`, `_result`, `_exception`, `_cancel_msg`, `_callbacks`.  Registered
done-callbacks are tracked by numeric identity (the loop only ever moves them,
opaquely, onto its ready queue). -/
structure Future : Type where
  _state : State
  _result : PyVal
  _exception : PyVal
  _cancel_msg : String
  _callbacks : List Nat
deriving DecidableEq, Repr

/-- Model of `Future.__init__(loop)`: pending, result/exception `None`,
default cancel message, empty callback list. -/
def futInit : Future :=
  { _state := State.PENDING
    _result := PyVal.none
    _exception := PyVal.none
    _cancel_msg := "Future is cancelled"
    _callbacks := [] }

/-- Model of `Future.done`: `self._state != _PENDING`. -/
def Future.done (f : Future) : Bool :=
  f._state != State.PENDING

/-- Model of `Future.cancelled`: `self._state == _CANCELLED`. -/
def Future.cancelled (f : Future) : Bool :=
  f._state == State.CANCELLED

/-- Model of `Future._schedule_callbacks`: copies `_callbacks`; if empty, returns with
no effect; otherwise clears the list and hands every callback to
`loop.call_soon`.  The handed-over callbacks are returned as the second
component (the loop-side enqueue is modelled at the loop level). -/
def Future.schedule_callbacks (f : Future) : Future × List Nat :=
  if f._callbacks = [] then (f, [])
  else ({ f with _callbacks := [] }, f._callbacks)

/-- Python `msg or self._cancel_msg` (`Future.cancel`): `None` and the empty
string are falsy, so either keeps the previous message. -/
def pyStrOr (msg : Option String) (dflt : String) : String :=
  match msg with
  | Option.none => dflt
  | Option.some s => if s = "" then dflt else s

/-- Model of `Future.cancel(msg=None)`: no-op if already `CANCELLED`; otherwise sets
`_state = CANCELLED`, `_cancel_msg = msg or self._cancel_msg`, and schedules
the pending callbacks. -/
def Future.cancel (f : Future) (msg : Option String) : Future × List Nat :=
  if f._state = State.CANCELLED then (f, [])
  else
    Future.schedule_callbacks
      { f with _state := State.CANCELLED, _cancel_msg := pyStrOr msg f._cancel_msg }

/-- Model of `Future.set_result(res)`: raises `RuntimeError(self._cancel_msg)` if the
future is cancelled (`_raise_cancel_error`); otherwise sets
`_state = FINISHED`, `_result = res` and schedules the callbacks. -/
def Future.set_result (f : Future) (res : PyVal) : Except PyVal (Future × List Nat) :=
  if f.cancelled then Except.error (PyVal.exc "RuntimeError" f._cancel_msg)
  else Except.ok (Future.schedule_callbacks { f with _state := State.FINISHED, _result := res })

/-- Model of `Future.set_exception(exc)`: raises `RuntimeError(self._cancel_msg)` if
the future is cancelled; otherwise sets `_state = FINISHED`,
`_exception = exc` and schedules the callbacks. -/
def Future.set_exception (f : Future) (e : PyVal) : Except PyVal (Future × List Nat) :=
  if f.cancelled then Except.error (PyVal.exc "RuntimeError" f._cancel_msg)
  else Except.ok (Future.schedule_callbacks { f with _state := State.FINISHED, _exception := e })

/-- Model of `Future.result()`: raises `RuntimeError("Result is not available")` if not
done; raises `RuntimeError(self._cancel_msg)` if cancelled; re-raises
`self._exception` if it is truthy; else returns `self._result`. -/
def Future.result (f : Future) : Except PyVal PyVal :=
  if ¬ f.done then Except.error (PyVal.exc "RuntimeError" "Result is not available")
  else if f.cancelled then Except.error (PyVal.exc "RuntimeError" f._cancel_msg)
  else if f._exception.truthy then Except.error f._exception
  else Except.ok f._result

/-- Outcome of `self._coro.send(None)` inside `Task._step`: the computation
either yields a value that is a `Future` (whose done-ness decides whether
`add_done_callback` succeeds), yields a non-`Future` value, finishes via
`StopIteration` with a value, or raises an exception. -/
inductive SendRes : Type where
  | yieldedFuture (futDone : Bool) : SendRes
  | yieldedOther : SendRes
  | stopIteration (v : PyVal) : SendRes
  | raised (e : PyVal) : SendRes
deriving DecidableEq, Repr

/-- Observable outcome of one `Task._step` call: the Task's `Future` part
afterwards, whether the internal `_done` continuation got registered on the
awaited future, and the callbacks the step handed to `loop.call_soon` via
`_schedule_callbacks`.  (`loop._current_task` is set to the task on entry and
reset to `None` in the `finally:` on every path, so its net effect is nil and
it is not a field here.) -/
structure StepOut : Type where
  fut : Future
  registered : Bool
  scheduled : List Nat
deriving DecidableEq, Repr

/-- Model of `Task._step` (`futures.py` lines 162-179), given the outcome of
`self._coro.send(None)`.
* not `PENDING`: early return, nothing happens;
* yielded a `Future`: `add_done_callback(_done)` — which raises
  `RuntimeError("Future is done")` if that future is already done; the broad
  `except BaseException` then lands in `super().set_exception(exc)`;
* yielded anything else: `RuntimeError("got unexpected object ...")` is
  *constructed but not raised* (source line 173), so nothing happens;
* `StopIteration`: `super().set_result(exc.value)`;
* any other exception `e`: `super().set_exception(e)`.
An exception escaping a handler (only possible from `set_result` /
`set_exception` on a cancelled task, unreachable under the `PENDING` guard)
propagates as the `Except.error` component. -/
def Task.step (t : Future) (sr : SendRes) : Except PyVal StepOut :=
  if t._state ≠ State.PENDING then Except.ok ⟨t, false, []⟩
  else
    match sr with
    | SendRes.yieldedFuture futDone =>
        if futDone then
          (t.set_exception (PyVal.exc "RuntimeError" "Future is done")).map
            (fun p => ⟨p.1, false, p.2⟩)
        else Except.ok ⟨t, true, []⟩
    | SendRes.yieldedOther => Except.ok ⟨t, false, []⟩
    | SendRes.stopIteration v => (t.set_result v).map (fun p => ⟨p.1, false, p.2⟩)
    | SendRes.raised e => (t.set_exception e).map (fun p => ⟨p.1, false, p.2⟩)

/-- A `Task` object (`futures.py`, `class Task(Future)`): its `Future` part,
the identity of the loop it is attached to (`self._loop`, compared by loop
identity in `create_task`), and the identity of its coroutine (`self._coro`,
opaque to the scheduler). -/
structure TaskObj : Type where
  fut : Future
  loopId : Nat
  coroId : Nat
deriving DecidableEq, Repr

/-- Reactor state of `BaseLoop.__init__`: ready-queue entries are opaque
callback tokens (a token `c` stands for the `_step` bound method of the task
driving coroutine `c`, or any other `call_soon` callback); `_stopping` and
`_closed` start `False`.  The selector and the wake-channel socket pair are
OS resources with no bearing on the scheduling claims; wake-channel writes
(`_write_self`) are counted in `wakes`. -/
structure Loop : Type where
  loopId : Nat
  _handlers : List Nat
  _stopping : Bool
  _closed : Bool
  wakes : Nat
deriving DecidableEq, Repr

/-- A fresh `BaseLoop` with identity `i`. -/
def loopInit (i : Nat) : Loop :=
  { loopId := i, _handlers := [], _stopping := false, _closed := false, wakes := 0 }

/-- Model of `BaseLoop._write_self`: writes a byte to the wake channel. -/
def Loop.write_self (L : Loop) : Loop :=
  { L with wakes := L.wakes + 1 }

/-- Model of `BaseLoop.stop`: `self._write_self(); self._stopping = True`. -/
def Loop.stop (L : Loop) : Loop :=
  { L.write_self with _stopping := true }

/-- Model of `BaseLoop.close`: raises `RuntimeError("loop must not be running to
close")` if `not self._stopping`; otherwise sets `_closed = True`. -/
def Loop.close (L : Loop) : Except PyVal Loop :=
  if ¬ L._stopping then Except.error (PyVal.exc "RuntimeError" "loop must not be running to close")
  else Except.ok { L with _closed := true }

/-- Model of `BaseLoop._check_closed`: raises `RuntimeError("loop is closed")` if
`self._closed`, else returns `True`. -/
def Loop.check_closed (L : Loop) : Except PyVal Bool :=
  if L._closed then Except.error (PyVal.exc "RuntimeError" "loop is closed")
  else Except.ok true

/-- Model of `BaseLoop.call_soon(fn, *args)` restricted to its queue effect: wraps the
callback in a `Handle` and appends it to `self._handlers` (`_add_handle` on a
plain `Handle` is `self._handlers.append(handle)`). -/
def Loop.call_soon (L : Loop) (token : Nat) : Loop :=
  { L with _handlers := L._handlers ++ [token] }

/-- Model of `Task.__init__(loop, coro)`: `Future.__init__` plus
`_cancel_msg = "Task is cancelled"`, then `loop.call_soon(self._step)` —
the first resume step is enqueued, never run inline. -/
def Task.init (L : Loop) (coroId : Nat) : TaskObj × Loop :=
  (⟨{ futInit with _cancel_msg := "Task is cancelled" }, L.loopId, coroId⟩,
   L.call_soon coroId)

/-- Argument to `BaseLoop.create_task`: a bare coroutine or an existing Task
(`isinstance(coro, Task)`). -/
inductive CoroOrTask : Type where
  | coro (coroId : Nat) : CoroOrTask
  | task (t : TaskObj) : CoroOrTask
deriving DecidableEq, Repr

/-- Model of `BaseLoop.create_task(coro)`: if the argument is a `Task`, raise
`RuntimeError("Task is attached to another loop")` when `coro._loop != self`,
else return it unchanged; otherwise construct `Task(self, coro)` (which
enqueues its first step). -/
def Loop.create_task (L : Loop) (arg : CoroOrTask) : Except PyVal (TaskObj × Loop) :=
  match arg with
  | CoroOrTask.task t =>
      if t.loopId ≠ L.loopId then
        Except.error (PyVal.exc "RuntimeError" "Task is attached to another loop")
      else Except.ok (t, L)
  | CoroOrTask.coro c => Except.ok (Task.init L c)

/-- A ready-queue `Handle` (`handlers.py`) for the tick-execution claims:
`hid` identifies the bound `(fn, args)`, `spawnList` is the list of handles
the callback enqueues via `call_soon` when `_run` executes it (the callback
effect visible to the scheduler), and the `_cancelled` flag.  Exceptions a
callback raises are swallowed by `Handle._run` and do not reach the tick. -/
inductive RHandle : Type where
  | mk (hid : Nat) (cancelledFlag : Bool) (spawnList : List RHandle) : RHandle

/-- The `Handle` identity. -/
def RHandle.hid : RHandle → Nat
  | RHandle.mk i _ _ => i

/-- The `Handle._cancelled` flag. -/
def RHandle.cancelledFlag : RHandle → Bool
  | RHandle.mk _ c _ => c

/-- The handles `call_soon`-ed by this handle's callback when it runs. -/
def RHandle.spawnList : RHandle → List RHandle
  | RHandle.mk _ _ s => s

/-- The execute phase of `BaseLoop._run_once` (lines 319-323):
`for _ in range(len(self._handlers)):` pop from the left; skip if
`handle._cancelled`; else `handle._run()` (which appends its spawned handles
at the right of the deque).  The fuel argument is the loop's
`len(self._handlers)` length snapshot.  Returns the ids run, in order, and
the queue contents after the phase. -/
def runPhase : Nat → List RHandle → List Nat → List Nat × List RHandle
  | 0, q, ran => (ran.reverse, q)
  | _ + 1, [], ran => (ran.reverse, [])
  | n + 1, h :: q, ran =>
      if h.cancelledFlag then runPhase n q ran
      else runPhase n (q ++ h.spawnList) (h.hid :: ran)

/-- The whole execute phase on ready queue `q`: fuel is the length snapshot
taken at phase start. -/
def executePhase (q : List RHandle) : List Nat × List RHandle :=
  runPhase q.length q []

/-- Model of `TimedHandle` (`handlers.py`): a `Handle` with a `_when` deadline; the
comparison operators order `TimedHandle`s by `when()` alone. -/
structure TimedHandle : Type where
  hid : Nat
  cancelledFlag : Bool
  _when : Int
deriving DecidableEq, Repr

/-- The timer-promotion phase of `BaseLoop._run_once` (lines 311-317):
`while self._timed_handlers: handle = heap[0]; if handle._when >= end: break;
heappop(...); self._handlers.append(handle)`.  The heap is represented by its
sorted-by-deadline sequence (`heapq` with `TimedHandle.__lt__` comparing
`when()`), so `heap[0]`/`heappop` are the head.  `endTime` is `end =
self.time()` read once before the loop.  Returns (ready queue, remaining
heap). -/
def promoteTimers (endTime : Int) : List TimedHandle → List TimedHandle →
    List TimedHandle × List TimedHandle
  | [], ready => (ready, [])
  | h :: rest, ready =>
      if h._when ≥ endTime then (ready, h :: rest)
      else promoteTimers endTime rest (ready ++ [h])

/-! ## Helper lemmas -/

/-- Method `_schedule_callbacks` always leaves the callback list empty and hands the
previous list over (when it is already empty the early `return` is the same
thing). -/
theorem schedule_callbacks_eq (f : Future) :
    f.schedule_callbacks = ({ f with _callbacks := [] }, f._callbacks) := by
  unfold Future.schedule_callbacks
  split
  · next h => cases f; simp_all
  · rfl

/-- Closed form of `Future.cancel`. -/
theorem cancel_eq (f : Future) (m : Option String) :
    f.cancel m =
      if f._state = State.CANCELLED then (f, [])
      else
        ({ f with
            _state := State.CANCELLED
            _cancel_msg := pyStrOr m f._cancel_msg
            _callbacks := [] },
         f._callbacks) := by
  unfold Future.cancel
  split
  · rfl
  · rw [schedule_callbacks_eq]

/-- Closed form of `Future.set_result`. -/
theorem set_result_eq (f : Future) (v : PyVal) :
    f.set_result v =
      if f._state = State.CANCELLED then
        Except.error (PyVal.exc "RuntimeError" f._cancel_msg)
      else Except.ok ({ f with _state := State.FINISHED, _result := v, _callbacks := [] },
        f._callbacks) := by
  unfold Future.set_result Future.cancelled
  rcases f with ⟨st, r, e, m, cbs⟩
  cases st <;> simp [schedule_callbacks_eq]

/-- Closed form of `Future.set_exception`. -/
theorem set_exception_eq (f : Future) (e : PyVal) :
    f.set_exception e =
      if f._state = State.CANCELLED then
        Except.error (PyVal.exc "RuntimeError" f._cancel_msg)
      else Except.ok ({ f with _state := State.FINISHED, _exception := e, _callbacks := [] },
        f._callbacks) := by
  unfold Future.set_exception Future.cancelled
  rcases f with ⟨st, r, ex, m, cbs⟩
  cases st <;> simp [schedule_callbacks_eq]

/-- Running `runPhase` with fuel equal to the length of the snapshot prefix: it runs
exactly the non-cancelled snapshot handles (FIFO) and leaves behind whatever
was already beyond the snapshot plus everything the executed callbacks
enqueued. -/
theorem runPhase_spec (q : List RHandle) :
    ∀ (extra : List RHandle) (ran : List Nat),
      runPhase q.length (q ++ extra) ran =
        (ran.reverse ++ (q.filter (fun h => !h.cancelledFlag)).map RHandle.hid,
         extra ++ (q.filter (fun h => !h.cancelledFlag)).flatMap RHandle.spawnList) := by
  induction q with
  | nil =>
      intro extra ran
      simp [runPhase]
  | cons h q ih =>
      intro extra ran
      by_cases hc : h.cancelledFlag
      · have : runPhase (h :: q).length ((h :: q) ++ extra) ran =
            runPhase q.length (q ++ extra) ran := by
          simp [runPhase, hc]
        rw [this, ih extra ran]
        simp [hc]
      · have : runPhase (h :: q).length ((h :: q) ++ extra) ran =
            runPhase q.length (q ++ (extra ++ h.spawnList)) (h.hid :: ran) := by
          simp [runPhase, hc, List.append_assoc]
        rw [this, ih (extra ++ h.spawnList) (h.hid :: ran)]
        simp [hc, List.append_assoc]

/-- The function `promoteTimers` computes the `takeWhile`/`dropWhile` split of the heap
sequence at the strict `_when < endTime` boundary. -/
theorem promoteTimers_spec (endTime : Int) (timers : List TimedHandle) :
    ∀ ready, promoteTimers endTime timers ready =
      (ready ++ timers.takeWhile (fun h => decide (h._when < endTime)),
       timers.dropWhile (fun h => decide (h._when < endTime))) := by
  induction timers with
  | nil =>
      intro ready
      simp [promoteTimers]
  | cons h rest ih =>
      intro ready
      by_cases hw : h._when ≥ endTime
      · have hd : decide (h._when < endTime) = false := by
          simp only [decide_eq_false_iff_not]
          omega
        simp [promoteTimers, hw, List.takeWhile_cons, List.dropWhile_cons, hd]
      · have hd : decide (h._when < endTime) = true := by
          simp only [decide_eq_true_eq]
          omega
        simp [promoteTimers, hw, List.takeWhile_cons, List.dropWhile_cons, hd,
          ih (ready ++ [h]), List.append_assoc]

/-! ## Claim theorems -/

/-- C1: in every reactor tick, the execute phase of `BaseLoop._run_once` runs
exactly the handles present in the ready queue at the start of the phase (the
`len(self._handlers)` snapshot), in FIFO (scheduling) order, skipping the
cancelled ones; every handle a callback enqueues during the phase is left in
the queue for the next tick, never executed in this one. -/
theorem c1_execute_phase_snapshot_fifo (q : List RHandle) :
    executePhase q =
      ((q.filter (fun h => !h.cancelledFlag)).map RHandle.hid,
       (q.filter (fun h => !h.cancelledFlag)).flatMap RHandle.spawnList) := by
  have h := runPhase_spec q [] []
  simpa [executePhase] using h

/-- C5 counterexample: a timer whose deadline is exactly equal to "now" is
*not* promoted — `BaseLoop._run_once` breaks on `handle._when >= end`, so the
timer stays in the heap and the ready queue stays empty, contrary to the
claim's "including a deadline exactly equal to now". -/
theorem c5_equal_deadline_not_promoted :
    promoteTimers 5 [⟨0, false, 5⟩] [] = ([], [⟨0, false, 5⟩]) := rfl

/-- C5 (amended): the promotion phase pops exactly the timers whose deadline
is strictly before `end = self.time()`, appending them to the ready queue in
heap (ascending-deadline) order; the first timer whose deadline is at or
after "now" halts promotion and the remaining heap is untouched. -/
theorem c5_promote_strictly_before (endTime : Int) (timers ready : List TimedHandle)
    (hs : timers.Pairwise (fun a b => a._when ≤ b._when)) :
    promoteTimers endTime timers ready =
      (ready ++ timers.takeWhile (fun h => decide (h._when < endTime)),
       timers.dropWhile (fun h => decide (h._when < endTime))) ∧
    (timers.takeWhile (fun h => decide (h._when < endTime))).Pairwise
      (fun a b => a._when ≤ b._when) ∧
    (∀ h ∈ timers.takeWhile (fun h => decide (h._when < endTime)), h._when < endTime) := by
  refine ⟨promoteTimers_spec endTime timers ready, ?_, ?_⟩
  · exact hs.sublist (List.takeWhile_sublist _)
  · intro h hm
    have := List.mem_takeWhile_imp hm
    simpa using this

/-- C5 witness: the amended promotion theorem at a concrete sorted heap with
one due timer and one future timer. -/
theorem c5_promote_witness :
    promoteTimers 10 [⟨0, false, 3⟩, ⟨1, false, 10⟩] [] =
      ([⟨0, false, 3⟩], [⟨1, false, 10⟩]) := by
  have h := (c5_promote_strictly_before 10 [⟨0, false, 3⟩, ⟨1, false, 10⟩] []
    (by decide)).1
  simpa using h

/-- C2 counterexample: after a successful `set_result(1)` on a fresh Future,
a second `set_result(2)` does *not* fail — `Future.set_result` only guards
against the `CANCELLED` state — and it overwrites the stored result with `2`,
so the first result is not preserved. -/
theorem c2_double_set_result_succeeds :
    (futInit.set_result (PyVal.int 1)).bind (fun p => p.1.set_result (PyVal.int 2)) =
      Except.ok ({ futInit with _state := State.FINISHED, _result := PyVal.int 2 }, []) := rfl

/-- C2 (amended): `set_result`/`set_exception` fail — with
`RuntimeError(self._cancel_msg)` — exactly when the Future is already
`CANCELLED`; on a `PENDING` *or already `FINISHED`* Future they succeed and
set the state to `FINISHED`, and in particular a second `set_result` after a
successful `set_result(v)` succeeds and overwrites the stored result. -/
theorem c2_set_guards_only_cancelled (f : Future) (v w : PyVal) :
    (f.cancelled = true →
        f.set_result v = Except.error (PyVal.exc "RuntimeError" f._cancel_msg) ∧
        f.set_exception w = Except.error (PyVal.exc "RuntimeError" f._cancel_msg)) ∧
    (f.cancelled = false →
        f.set_result v =
          Except.ok ({ f with _state := State.FINISHED, _result := v, _callbacks := [] },
            f._callbacks) ∧
        Future.set_result { f with _state := State.FINISHED, _result := v, _callbacks := [] }
            w =
          Except.ok ({ f with _state := State.FINISHED, _result := w, _callbacks := [] },
            [])) := by
  have hc : f.cancelled = true ↔ f._state = State.CANCELLED := by
    unfold Future.cancelled
    cases f._state <;> simp
  constructor
  · intro h
    rw [set_result_eq, set_exception_eq, if_pos (hc.mp h), if_pos (hc.mp h)]
    exact ⟨rfl, rfl⟩
  · intro h
    have hns : ¬ f._state = State.CANCELLED := fun hh => by
      rw [hc.mpr hh] at h
      cases h
    constructor
    · rw [set_result_eq, if_neg hns]
    · rw [set_result_eq]
      simp

/-- C2 witness: the amended theorem applied to a concrete cancelled Future and
to the fresh pending Future. -/
theorem c2_witness :
    Future.set_result ⟨State.CANCELLED, PyVal.none, PyVal.none, "msg", []⟩ (PyVal.int 7) =
      Except.error (PyVal.exc "RuntimeError" "msg") ∧
    futInit.set_result (PyVal.int 1) =
      Except.ok ({ futInit with _state := State.FINISHED, _result := PyVal.int 1 }, []) := by
  refine ⟨?_, ?_⟩
  · exact ((c2_set_guards_only_cancelled
      ⟨State.CANCELLED, PyVal.none, PyVal.none, "msg", []⟩ (PyVal.int 7) (PyVal.int 7)).1
      rfl).1
  · exact ((c2_set_guards_only_cancelled futInit (PyVal.int 1) (PyVal.int 1)).2 rfl).1

/-- C4 counterexample: a Fulfilled Future is not terminal.  `set_result(1)` on
a fresh Future yields a `FINISHED` Future; `cancel()` on it then moves it to
`CANCELLED` (a transition out of a terminal state), and `set_exception` on it
succeeds, leaving *both* the result `1` and the error set. -/
theorem c4_fulfilled_not_terminal :
    futInit.set_result (PyVal.int 1) =
      Except.ok ({ futInit with _state := State.FINISHED, _result := PyVal.int 1 }, []) ∧
    Future.cancel { futInit with _state := State.FINISHED, _result := PyVal.int 1 }
        Option.none =
      ({ futInit with _state := State.CANCELLED, _result := PyVal.int 1 }, []) ∧
    Future.set_exception { futInit with _state := State.FINISHED, _result := PyVal.int 1 }
        (PyVal.exc "ValueError" "boom") =
      Except.ok ({ futInit with
          _state := State.FINISHED
          _result := PyVal.int 1
          _exception := PyVal.exc "ValueError" "boom" }, []) :=
  ⟨rfl, rfl, rfl⟩

/-- C4 (amended): only the `CANCELLED` state is absorbing — on a cancelled
Future, `cancel` is a no-op and `set_result`/`set_exception` fail with the
cancellation error, so nothing moves a Future out of `CANCELLED`; moreover
`cancel` always lands in `CANCELLED` and a successful
`set_result`/`set_exception` always lands in `FINISHED` (the only transitions
are into `FINISHED` or `CANCELLED`).  `FINISHED` is *not* terminal: `cancel`
moves it to `CANCELLED`, and `set_exception` after `set_result` leaves both
result and error set (see the counterexample). -/
theorem c4_cancelled_absorbing (f g : Future) (v e : PyVal) (m : Option String)
    (h : f._state = State.CANCELLED) :
    f.cancel m = (f, []) ∧
    f.set_result v = Except.error (PyVal.exc "RuntimeError" f._cancel_msg) ∧
    f.set_exception e = Except.error (PyVal.exc "RuntimeError" f._cancel_msg) ∧
    (g.cancel m).1._state = State.CANCELLED ∧
    (∀ p, g.set_result v = Except.ok p → p.1._state = State.FINISHED) ∧
    (∀ p, g.set_exception e = Except.ok p → p.1._state = State.FINISHED) := by
  refine ⟨?_, ?_, ?_, ?_, ?_, ?_⟩
  · rw [cancel_eq, if_pos h]
  · rw [set_result_eq, if_pos h]
  · rw [set_exception_eq, if_pos h]
  · rw [cancel_eq]
    split
    · next hg => exact hg
    · rfl
  · intro p hp
    rw [set_result_eq] at hp
    split at hp
    · exact absurd hp (by simp)
    · cases hp
      rfl
  · intro p hp
    rw [set_exception_eq] at hp
    split at hp
    · exact absurd hp (by simp)
    · cases hp
      rfl

/-- C4 witness: the amended theorem applied to a concrete cancelled Future
(with `g` the fresh pending Future). -/
theorem c4_witness :
    Future.cancel ⟨State.CANCELLED, PyVal.none, PyVal.none, "m", [3]⟩ (Option.some "x") =
      (⟨State.CANCELLED, PyVal.none, PyVal.none, "m", [3]⟩, []) ∧
    (futInit.cancel (Option.some "x")).1._state = State.CANCELLED := by
  have h := c4_cancelled_absorbing ⟨State.CANCELLED, PyVal.none, PyVal.none, "m", [3]⟩
    futInit (PyVal.int 0) (PyVal.int 0) (Option.some "x") rfl
  exact ⟨h.1, h.2.2.2.1⟩

/-- C8: `Future.cancel` is idempotent — a second `cancel` on an
already-cancelled Future returns it unchanged and schedules nothing — so the
stored cancellation message after the second call equals the message set by
the first call; and cancelling with no message keeps the previous (default)
message. -/
theorem c8_cancel_idempotent (f : Future) (m1 m2 : Option String) :
    ((f.cancel m1).1).cancel m2 = ((f.cancel m1).1, []) ∧
    (((f.cancel m1).1).cancel m2).1._cancel_msg = (f.cancel m1).1._cancel_msg ∧
    ((f.cancel Option.none).1)._cancel_msg = f._cancel_msg := by
  have hstate : (f.cancel m1).1._state = State.CANCELLED := by
    rw [cancel_eq]
    split
    · next hg => exact hg
    · rfl
  have hidem : ((f.cancel m1).1).cancel m2 = ((f.cancel m1).1, []) := by
    rw [cancel_eq, if_pos hstate]
  refine ⟨hidem, by rw [hidem], ?_⟩
  rw [cancel_eq]
  split
  · rfl
  · simp [pyStrOr]

/-- C3 (evaluating the code at the failing input): when the driven computation
of a freshly constructed Task yields a value that is not a `Future`,
`Task._step` returns with the Task unchanged — still `PENDING`, no exception
recorded, no continuation registered, nothing scheduled.  The source
(`futures.py` line 173) evaluates `RuntimeError("got unexpected object ...")`
without `raise`, so the step continues silently, contrary to the claim (and
to §4.3/§9 of the spec, which call this a defect). -/
theorem c3_nonfuture_yield_is_silent :
    Task.step (Task.init (loopInit 0) 0).1.fut SendRes.yieldedOther =
      Except.ok ⟨(Task.init (loopInit 0) 0).1.fut, false, []⟩ ∧
    ((Task.init (loopInit 0) 0).1.fut)._state = State.PENDING ∧
    ((Task.init (loopInit 0) 0).1.fut)._exception = PyVal.none :=
  ⟨rfl, rfl, rfl⟩

/-- C7: when the driven computation of a pending Task raises a (truthy, as
every Python exception instance is) error `e`, the step itself returns
normally (the error does not propagate synchronously) and the Task moves to
the terminal error state: `done()` is true, `cancelled()` is false, and
`result()` re-raises `e`. -/
theorem c7_raised_error_captured (t : Future) (e : PyVal)
    (hp : t._state = State.PENDING) (he : e.truthy = true) :
    Task.step t (SendRes.raised e) =
      Except.ok ⟨{ t with _state := State.FINISHED, _exception := e, _callbacks := [] },
        false, t._callbacks⟩ ∧
    Future.done { t with _state := State.FINISHED, _exception := e, _callbacks := [] } =
      true ∧
    Future.cancelled { t with _state := State.FINISHED, _exception := e, _callbacks := [] } =
      false ∧
    Future.result { t with _state := State.FINISHED, _exception := e, _callbacks := [] } =
      Except.error e := by
  refine ⟨?_, rfl, rfl, ?_⟩
  · rcases t with ⟨st, r, ex, m, cbs⟩
    have h' : st = State.PENDING := hp
    subst h'
    show ((Future.set_exception ⟨State.PENDING, r, ex, m, cbs⟩ e).map
        (fun p => (⟨p.1, false, p.2⟩ : StepOut))) = _
    rw [set_exception_eq]
    rfl
  · unfold Future.result Future.done Future.cancelled
    simp [he]

/-- C7 witness: the theorem at the fresh pending Future and a concrete
exception object. -/
theorem c7_witness :
    Task.step futInit (SendRes.raised (PyVal.exc "ValueError" "boom")) =
      Except.ok ⟨{ futInit with
          _state := State.FINISHED
          _exception := PyVal.exc "ValueError" "boom" }, false, []⟩ ∧
    Future.result { futInit with
        _state := State.FINISHED
        _exception := PyVal.exc "ValueError" "boom" } =
      Except.error (PyVal.exc "ValueError" "boom") := by
  have h := c7_raised_error_captured futInit (PyVal.exc "ValueError" "boom") rfl rfl
  exact ⟨h.1, h.2.2.2⟩

/-- C6 counterexample: a freshly constructed loop has never run (it is not
currently running and `stop()` was never requested), yet `close()` raises
`RuntimeError("loop must not be running to close")` — `BaseLoop.close`
demands the `_stopping` flag, not "not running".  Moreover `call_soon` on a
*closed* loop still succeeds (it never consults `_closed`), against the
claim's "public scheduling entry points fail with a closed-reactor error". -/
theorem c6_close_fails_on_fresh_loop :
    (loopInit 0)._stopping = false ∧ (loopInit 0)._closed = false ∧
    (loopInit 0).close =
      Except.error (PyVal.exc "RuntimeError" "loop must not be running to close") ∧
    Loop.call_soon { loopInit 0 with _closed := true } 5 =
      { loopInit 0 with _closed := true, _handlers := [5] } :=
  ⟨rfl, rfl, rfl, rfl⟩

/-- C6 (amended): `close()` succeeds exactly when the `_stopping` flag is set
(a `stop()` request is pending and not yet consumed by `run_forever`), and
then marks the loop permanently closed; whenever `_stopping` is clear it
fails with `RuntimeError("loop must not be running to close")`, even on a
loop that is not running.  Once closed, the entry points that call
`_check_closed` (`run_forever`, `run_until_done`) fail with
`RuntimeError("loop is closed")`; `call_soon`/`call_at` never consult the
closed flag. -/
theorem c6_close_requires_stopping (L : Loop) :
    (L._stopping = false →
       L.close = Except.error (PyVal.exc "RuntimeError" "loop must not be running to close")) ∧
    (L._stopping = true → L.close = Except.ok { L with _closed := true }) ∧
    (L._closed = true →
       L.check_closed = Except.error (PyVal.exc "RuntimeError" "loop is closed")) := by
  refine ⟨?_, ?_, ?_⟩
  · intro h
    unfold Loop.close
    rw [if_pos (by rw [h]; simp)]
  · intro h
    unfold Loop.close
    rw [if_neg (by rw [h]; simp)]
  · intro h
    unfold Loop.check_closed
    rw [if_pos h]

/-- C6 witness: the amended theorem at a fresh loop, a stopped loop, and a
closed loop. -/
theorem c6_witness :
    (loopInit 1).close =
      Except.error (PyVal.exc "RuntimeError" "loop must not be running to close") ∧
    ((loopInit 1).stop).close = Except.ok { (loopInit 1).stop with _closed := true } ∧
    Loop.check_closed { loopInit 1 with _closed := true } =
      Except.error (PyVal.exc "RuntimeError" "loop is closed") := by
  refine ⟨?_, ?_, ?_⟩
  · exact (c6_close_requires_stopping (loopInit 1)).1 rfl
  · exact (c6_close_requires_stopping ((loopInit 1).stop)).2.1 rfl
  · exact (c6_close_requires_stopping { loopInit 1 with _closed := true }).2.2 rfl

/-- C9: `create_task` on a Task already attached to this loop returns that
very Task and leaves the ready queue untouched (no new resume step); on a
Task attached to a different loop it raises
`RuntimeError("Task is attached to another loop")`; on a bare coroutine it
constructs a new pending Task (cancel message `"Task is cancelled"`) and
enqueues exactly its first `_step` handle. -/
theorem c9_create_task_passthrough (L : Loop) (t : TaskObj) (c : Nat) :
    (t.loopId = L.loopId → L.create_task (CoroOrTask.task t) = Except.ok (t, L)) ∧
    (t.loopId ≠ L.loopId →
       L.create_task (CoroOrTask.task t) =
         Except.error (PyVal.exc "RuntimeError" "Task is attached to another loop")) ∧
    L.create_task (CoroOrTask.coro c) =
      Except.ok (⟨{ futInit with _cancel_msg := "Task is cancelled" }, L.loopId, c⟩,
        { L with _handlers := L._handlers ++ [c] }) := by
  refine ⟨?_, ?_, rfl⟩
  · intro h
    show (if t.loopId ≠ L.loopId then
        Except.error (PyVal.exc "RuntimeError" "Task is attached to another loop")
      else Except.ok (t, L)) = Except.ok (t, L)
    rw [if_neg (by simp [h])]
  · intro h
    show (if t.loopId ≠ L.loopId then
        Except.error (PyVal.exc "RuntimeError" "Task is attached to another loop")
      else Except.ok (t, L)) =
        Except.error (PyVal.exc "RuntimeError" "Task is attached to another loop")
    rw [if_pos h]

/-- C9 witness: the theorem at a concrete loop, a same-loop Task, a
foreign-loop Task, and a bare coroutine. -/
theorem c9_witness :
    Loop.create_task (loopInit 0) (CoroOrTask.task ⟨futInit, 0, 7⟩) =
      Except.ok (⟨futInit, 0, 7⟩, loopInit 0) ∧
    Loop.create_task (loopInit 0) (CoroOrTask.task ⟨futInit, 1, 7⟩) =
      Except.error (PyVal.exc "RuntimeError" "Task is attached to another loop") ∧
    Loop.create_task (loopInit 0) (CoroOrTask.coro 7) =
      Except.ok (⟨{ futInit with _cancel_msg := "Task is cancelled" }, 0, 7⟩,
        { loopInit 0 with _handlers := [7] }) := by
  refine ⟨?_, ?_, ?_⟩
  · exact (c9_create_task_passthrough (loopInit 0) ⟨futInit, 0, 7⟩ 7).1 rfl
  · exact (c9_create_task_passthrough (loopInit 0) ⟨futInit, 1, 7⟩ 7).2.1 (by decide)
  · exact (c9_create_task_passthrough (loopInit 0) ⟨futInit, 0, 7⟩ 7).2.2
